import Mathlib

/-!
# Verification of `warehouse_monitoring_dash.py`

A shallow embedding of the non-UI logic of the warehouse monitoring
dashboard: the synthetic data generator `generate_data` and the
filter/KPI pipeline of the `update_dashboard` callback.

Modelling conventions:
* Timestamps are integers counting minutes on a linear clock whose zero
  is a midnight, so the calendar date of a timestamp is its floor
  division by 1440 (minutes per day).  This models the pandas
  `Series.dt.date` extraction and the `datetime` arithmetic
  `now - timedelta(minutes=k)` of the source.
* The bounded Python random draws (`random.randint(a, b)`,
  `random.choice(lst)`, `round(random.uniform(5.0, 60.0), 2)`) always
  return a value of the respective finite range.  Each draw is modelled
  by an arbitrary natural number reduced into that range, exactly the
  set of values the Python primitive can return: `randint a b` maps a
  seed `r` to `a + r % (b - a + 1)`, `choice` indexes the list by
  `r % length`, and the rounded uniform duration is a count of
  hundredths between 500 and 6000.
* Exact rational arithmetic stands in for Python floats; the f-string
  formatting `f"{x:.2f}"` is modelled by rounding the rational to the
  nearest hundredth and printing it with two decimals.
* The module-level mutable `df` is threaded explicitly: the callback
  takes the global state and returns it alongside its outputs.
-/

namespace Warehouse

/-- One simulated task event, the rows of the generated DataFrame.
`timestamp` is in minutes on a linear clock; `task_duration` is in
minutes as an exact rational. -/
structure Record where
  timestamp : Int
  machine_id : String
  task_duration : ℚ
  status : String
  error_code : String
  deriving DecidableEq, Repr

/-- Calendar date of a timestamp (`Series.dt.date`): the day index on
the linear minute clock, i.e. floor division by 1440 minutes. -/
def dateOf (t : Int) : Int := Int.fdiv t 1440

/-- The filter controls of one `update_dashboard` invocation:
`start_date` and `end_date` from the date picker (already parsed to a
day index, as `pd.to_datetime(s).date()` does), the machine dropdown,
and the multi-select error-code dropdown.  Here `none` and `[]` model
the falsy Python values None and empty list in the guards of the form
`if start_date:`. -/
structure Criteria where
  start_date : Option Int
  end_date : Option Int
  machine_id : Option String
  error_codes : List String
  deriving DecidableEq, Repr

/-- Model of `random.choice lst` given a raw draw `r`: the element at index
`r % len(lst)` (every index is reachable, none other). -/
def pyChoice (l : List String) (r : Nat) : String := l.getD (r % l.length) ""

/-- Model of `random.randint a b` (inclusive bounds) given a raw draw `r`. -/
def randint (a b r : Nat) : Nat := a + r % (b - a + 1)

/-- The raw random draws consumed for one record of `generate_data`:
the minute offset seed, the seed for the status choice over the pool
of nine success slots and one failure slot, the seed for the
error-code `random.choice`, the seed
for `random.randint(1, 5)` (machine id), and the duration in hundredths
of a minute, `round(random.uniform(5.0, 60.0), 2)` being some value
`k/100` with `500 ≤ k ≤ 6000`. -/
structure Draw where
  minuteSeed : Nat
  statusSeed : Nat
  errorSeed : Nat
  machineSeed : Nat
  durationSeed : Nat
  deriving DecidableEq, Repr

/-- The status pool of the source: nine success entries followed by
one failure entry, from which the status of each record is drawn. -/
def statusPool : List String := List.replicate 9 "success" ++ ["failure"]

/-- One row of `generate_data`, built from `now` and the draws of one
record, mirroring the source column by column:
`timestamp = now - timedelta(minutes=randint(0, 1440))`,
`machine_id = f"M-{randint(1, 5)}"`,
`task_duration = round(uniform(5.0, 60.0), 2)`,
`status` drawn from the nine-to-one status pool,
`error_code = choice(["E-100","E-200","E-300"] if s == "failure" else ["None"])`. -/
def genRecord (now : Int) (d : Draw) : Record where
  timestamp := now - (randint 0 1440 d.minuteSeed : Nat)
  machine_id := "M-" ++ toString (randint 1 5 d.machineSeed)
  task_duration := ((randint 500 6000 d.durationSeed : Nat) : ℚ) / 100
  status := pyChoice statusPool d.statusSeed
  error_code :=
    pyChoice
      (if pyChoice statusPool d.statusSeed == "failure" then ["E-100", "E-200", "E-300"]
       else ["None"])
      d.errorSeed

/-- Embedding of `generate_data(n)`: one record per element of the draw stream. -/
def generate_data (now : Int) (draws : List Draw) : List Record :=
  draws.map (genRecord now)

/-- Stage `if start_date: filtered_df = filtered_df[filtered_df["timestamp"].dt.date >= start]`. -/
def startFilter (c : Criteria) (rs : List Record) : List Record :=
  match c.start_date with
  | some s => rs.filter (fun r => s ≤ dateOf r.timestamp)
  | none => rs

/-- Stage `if end_date: filtered_df = filtered_df[filtered_df["timestamp"].dt.date <= end]`. -/
def endFilter (c : Criteria) (rs : List Record) : List Record :=
  match c.end_date with
  | some e => rs.filter (fun r => dateOf r.timestamp ≤ e)
  | none => rs

/-- The two date bounds applied in source order. -/
def dateFilter (c : Criteria) (rs : List Record) : List Record :=
  endFilter c (startFilter c rs)

/-- Stage `if machine_id: filtered_df = filtered_df[filtered_df["machine_id"] == machine_id]`. -/
def machineFilter (c : Criteria) (rs : List Record) : List Record :=
  match c.machine_id with
  | some m => rs.filter (fun r => r.machine_id == m)
  | none => rs

/-- Stage `if error_codes: filtered_df = filtered_df[filtered_df["error_code"].isin(error_codes)]`
(Python truthiness: an empty selection leaves the frame untouched). -/
def errorFilter (c : Criteria) (rs : List Record) : List Record :=
  if c.error_codes.isEmpty then rs
  else rs.filter (fun r => c.error_codes.contains r.error_code)

/-- The four sequential `if`-guarded filters of `update_dashboard`, in
source order: start date, end date, machine, error codes. -/
def applyFilters (c : Criteria) (rs : List Record) : List Record :=
  errorFilter c (machineFilter c (dateFilter c rs))

/-- The conjunction of the four filter conditions on a single record. -/
def keep (c : Criteria) (r : Record) : Bool :=
  (match c.start_date with | some s => decide (s ≤ dateOf r.timestamp) | none => true)
    && (match c.end_date with | some e => decide (dateOf r.timestamp ≤ e) | none => true)
    && (match c.machine_id with | some m => r.machine_id == m | none => true)
    && (c.error_codes.isEmpty || c.error_codes.contains r.error_code)

/-- Formatting `f"{x:.2f}"` on the exact rational: round to the nearest hundredth
and print with exactly two decimal digits. -/
def format2 (q : ℚ) : String :=
  let n : Int := round (q * 100)
  let sign := if n < 0 then "-" else ""
  let m := n.natAbs
  sign ++ toString (m / 100) ++ "." ++
    (if m % 100 < 10 then "0" else "") ++ toString (m % 100)

/-- The exact rational printed by `format2`: the argument rounded to
the nearest hundredth. -/
def round2 (q : ℚ) : ℚ := (round (q * 100) : ℚ) / 100

/-- The KPI count `len(filtered_df[filtered_df["status"] == "success"])`. -/
def successCount (rs : List Record) : Nat :=
  (rs.filter (fun r => r.status == "success")).length

/-- The KPI mean `filtered_df["task_duration"].mean()` (only used on non-empty
frames in the source, guarded by `if not filtered_df.empty`). -/
def meanDuration (rs : List Record) : ℚ :=
  (rs.map Record.task_duration).sum / rs.length

/-- The outputs of `update_dashboard` that carry data (the table rows
and the four KPI tiles); the Plotly figures are rendered from the same
`filtered_df` and are presentation only. -/
structure Output where
  tableData : List Record
  totalTasks : Nat
  successRate : String
  avgDuration : String
  failureRate : String
  deriving DecidableEq, Repr

/-- The module-level state: the global DataFrame `df`. -/
structure DashState where
  df : List Record
  deriving DecidableEq, Repr

/-- The `update_dashboard` callback: filter a copy of the global `df`
by the criteria, compute the KPIs, return the outputs together with
the (unchanged) global state. -/
def update_dashboard (st : DashState) (c : Criteria) : Output × DashState :=
  let filtered_df := applyFilters c st.df
  let total_tasks := filtered_df.length
  let success_count := successCount filtered_df
  let success_rate :=
    if total_tasks > 0 then
      format2 (((success_count : ℚ) / (total_tasks : ℚ)) * 100) ++ "%"
    else "0%"
  let avg_duration :=
    if !filtered_df.isEmpty then format2 (meanDuration filtered_df) else "0.00"
  let failure_rate :=
    if total_tasks > 0 then
      format2 ((((total_tasks : ℚ) - (success_count : ℚ)) / (total_tasks : ℚ)) * 100) ++ "%"
    else "0%"
  ({ tableData := filtered_df
     totalTasks := total_tasks
     successRate := success_rate
     avgDuration := avg_duration
     failureRate := failure_rate }, st)

/-! ## Sample data for witnesses -/

/-- A small concrete record set, used to instantiate theorems with
hypotheses at concrete inputs. -/
def sampleDf : List Record :=
  [⟨2890, "M-1", 10, "success", "None"⟩,
   ⟨4325, "M-2", 20, "failure", "E-100"⟩,
   ⟨5767, "M-1", 30, "success", "None"⟩]

/-! ## Helper lemmas about the filter stages -/

lemma startFilter_eq_filter (c : Criteria) (rs : List Record) :
    startFilter c rs
      = rs.filter (fun r =>
          match c.start_date with | some s => decide (s ≤ dateOf r.timestamp) | none => true) := by
  cases h : c.start_date <;> simp [startFilter, h]

lemma endFilter_eq_filter (c : Criteria) (rs : List Record) :
    endFilter c rs
      = rs.filter (fun r =>
          match c.end_date with | some e => decide (dateOf r.timestamp ≤ e) | none => true) := by
  cases h : c.end_date <;> simp [endFilter, h]

lemma machineFilter_eq_filter (c : Criteria) (rs : List Record) :
    machineFilter c rs
      = rs.filter (fun r =>
          match c.machine_id with | some m => r.machine_id == m | none => true) := by
  cases h : c.machine_id <;> simp [machineFilter, h]

lemma errorFilter_eq_filter (c : Criteria) (rs : List Record) :
    errorFilter c rs
      = rs.filter (fun r => c.error_codes.isEmpty || c.error_codes.contains r.error_code) := by
  by_cases h : c.error_codes.isEmpty <;> simp [errorFilter, h]

/-- The whole pipeline is one pass keeping exactly the records that
satisfy all four conditions. -/
lemma applyFilters_eq_filter (c : Criteria) (rs : List Record) :
    applyFilters c rs = rs.filter (keep c) := by
  rw [applyFilters, dateFilter, startFilter_eq_filter, endFilter_eq_filter,
    machineFilter_eq_filter, errorFilter_eq_filter, List.filter_filter,
    List.filter_filter, List.filter_filter]
  congr 1
  funext r
  obtain ⟨sd, ed, mid, ecs⟩ := c
  cases sd <;> cases ed <;> cases mid <;>
    simp [keep, Bool.and_comm, Bool.and_left_comm, Bool.and_assoc]

/-! ## Claim theorems -/

/-- C3: the date filter keeps exactly the records whose calendar date
`d = dateOf timestamp` satisfies `start ≤ d` when a start bound is
present and `d ≤ end` when an end bound is present (both inclusive);
an absent bound imposes no restriction on that side. -/
theorem dateFilter_mem_iff (c : Criteria) (rs : List Record) (r : Record) :
    r ∈ dateFilter c rs
      ↔ r ∈ rs ∧ (∀ s ∈ c.start_date, s ≤ dateOf r.timestamp)
          ∧ (∀ e ∈ c.end_date, dateOf r.timestamp ≤ e) := by
  cases hs : c.start_date <;> cases he : c.end_date <;>
    simp [dateFilter, startFilter, endFilter, hs, he, List.mem_filter, and_assoc]
  tauto

/-- C6: the error-code filter keeps exactly the records whose
`error_code` belongs to the given set when it is non-empty, and keeps
every record when the set is empty (the falsy Python values). -/
theorem errorFilter_mem_iff (c : Criteria) (rs : List Record) (r : Record) :
    r ∈ errorFilter c rs
      ↔ r ∈ rs ∧ (c.error_codes = [] ∨ r.error_code ∈ c.error_codes) := by
  by_cases h : c.error_codes.isEmpty
  · rw [List.isEmpty_iff] at h
    simp [errorFilter, h]
  · rw [List.isEmpty_iff] at h
    simp only [errorFilter, List.isEmpty_iff, if_neg h]
    simp [List.mem_filter, h]

/-- C5: with every criterion absent (no start date, no end date, no
machine, no error codes) the pipeline returns the input unchanged, in
the same order. -/
theorem applyFilters_empty_criteria (c : Criteria) (rs : List Record)
    (h1 : c.start_date = none) (h2 : c.end_date = none)
    (h3 : c.machine_id = none) (h4 : c.error_codes = []) :
    applyFilters c rs = rs := by
  simp [applyFilters, dateFilter, startFilter, endFilter, machineFilter, errorFilter,
    h1, h2, h3, h4]

/-- C5 witness: the identity at a concrete record set. -/
theorem applyFilters_empty_criteria_witness :
    applyFilters ⟨none, none, none, []⟩ sampleDf = sampleDf :=
  applyFilters_empty_criteria ⟨none, none, none, []⟩ sampleDf rfl rfl rfl rfl

/-- C7: filtering is idempotent: running the filter stage on its own
output under the same criteria changes nothing. -/
theorem applyFilters_idempotent (c : Criteria) (rs : List Record) :
    applyFilters c (applyFilters c rs) = applyFilters c rs := by
  simp only [applyFilters_eq_filter, List.filter_filter]
  simp

/-- C9: for every criteria the filtered set is an order-preserving
subsequence of the input: no record is synthesized, duplicated or
reordered. -/
theorem applyFilters_sublist (c : Criteria) (rs : List Record) :
    List.Sublist (applyFilters c rs) rs := by
  rw [applyFilters_eq_filter]
  exact List.filter_sublist rs

/-- C10: the callback never mutates the stored record set: the global
state it returns is exactly the state it was given (the source filters
a copy of `df`). -/
theorem update_dashboard_preserves_state (st : DashState) (c : Criteria) :
    (update_dashboard st c).2 = st := rfl

/-- C2: when the filtered set is empty the KPI computation is total and
yields the zero values of the guards in the source: `total = 0`,
`avg_duration = "0.00"`, `success_rate = failure_rate = "0%"`. -/
theorem update_dashboard_empty_filtered (st : DashState) (c : Criteria)
    (h : applyFilters c st.df = []) :
    (update_dashboard st c).1.totalTasks = 0
      ∧ (update_dashboard st c).1.avgDuration = "0.00"
      ∧ (update_dashboard st c).1.successRate = "0%"
      ∧ (update_dashboard st c).1.failureRate = "0%" := by
  simp [update_dashboard, h]

/-- C2 witness: a machine criterion matching no record empties the
filtered set and the KPIs degrade to their zero values. -/
theorem update_dashboard_empty_filtered_witness :
    applyFilters ⟨none, none, some "M-9", []⟩ sampleDf = []
      ∧ ((update_dashboard ⟨sampleDf⟩ ⟨none, none, some "M-9", []⟩).1.totalTasks = 0
          ∧ (update_dashboard ⟨sampleDf⟩ ⟨none, none, some "M-9", []⟩).1.avgDuration = "0.00"
          ∧ (update_dashboard ⟨sampleDf⟩ ⟨none, none, some "M-9", []⟩).1.successRate = "0%"
          ∧ (update_dashboard ⟨sampleDf⟩ ⟨none, none, some "M-9", []⟩).1.failureRate = "0%") :=
  ⟨by decide, update_dashboard_empty_filtered ⟨sampleDf⟩ ⟨none, none, some "M-9", []⟩ (by decide)⟩

/-- Rounding each of two rationals summing to 100 to the nearest
hundredth moves their sum away from 100 by at most one hundredth. -/
lemma round2_pair_near (a b : ℚ) (hab : a + b = 100) :
    |round2 a + round2 b - 100| ≤ 1 / 100 := by
  have h1 : |(round (a * 100) : ℚ) - a * 100| ≤ 1 / 2 := by
    have := abs_sub_round (a * 100)
    rwa [abs_sub_comm] at this
  have h2 : |(round (b * 100) : ℚ) - b * 100| ≤ 1 / 2 := by
    have := abs_sub_round (b * 100)
    rwa [abs_sub_comm] at this
  have h3 : round2 a + round2 b - 100
      = (((round (a * 100) : ℚ) - a * 100) + ((round (b * 100) : ℚ) - b * 100)) / 100 := by
    rw [round2, round2]
    field_simp
    linarith [hab]
  rw [h3, abs_div]
  have habs : |(100 : ℚ)| = 100 := by norm_num
  rw [habs]
  calc |(((round (a * 100) : ℚ) - a * 100) + ((round (b * 100) : ℚ) - b * 100))| / 100
      ≤ (|(round (a * 100) : ℚ) - a * 100| + |(round (b * 100) : ℚ) - b * 100|) / 100 := by
        gcongr
        exact abs_add _ _
    _ ≤ (1 / 2 + 1 / 2) / 100 := by gcongr
    _ = 1 / 100 := by norm_num

/-- C4: on a non-empty filtered set the exact success and failure
fractions sum to exactly 1, and the two-decimal roundings of the
percentage values the KPI strings print sum to 100 within one
hundredth. -/
theorem rates_sum_to_one (st : DashState) (c : Criteria)
    (h : applyFilters c st.df ≠ []) :
    (successCount (applyFilters c st.df) : ℚ) / ((applyFilters c st.df).length : ℚ)
        + (((applyFilters c st.df).length : ℚ) - (successCount (applyFilters c st.df) : ℚ))
          / ((applyFilters c st.df).length : ℚ) = 1
      ∧ |round2 ((successCount (applyFilters c st.df) : ℚ)
            / ((applyFilters c st.df).length : ℚ) * 100)
          + round2 ((((applyFilters c st.df).length : ℚ)
              - (successCount (applyFilters c st.df) : ℚ))
            / ((applyFilters c st.df).length : ℚ) * 100) - 100| ≤ 1 / 100 := by
  have hlen : ((applyFilters c st.df).length : ℚ) ≠ 0 := by
    have hpos : 0 < (applyFilters c st.df).length := List.length_pos.mpr h
    exact_mod_cast hpos.ne'
  have hsum : (successCount (applyFilters c st.df) : ℚ) / ((applyFilters c st.df).length : ℚ)
      + (((applyFilters c st.df).length : ℚ) - (successCount (applyFilters c st.df) : ℚ))
        / ((applyFilters c st.df).length : ℚ) = 1 := by
    rw [div_add_div_same]
    have hcancel : (successCount (applyFilters c st.df) : ℚ)
        + (((applyFilters c st.df).length : ℚ) - (successCount (applyFilters c st.df) : ℚ))
        = ((applyFilters c st.df).length : ℚ) := by ring
    rw [hcancel, div_self hlen]
  refine ⟨hsum, round2_pair_near _ _ ?_⟩
  rw [← add_mul, hsum]
  norm_num

/-- C4 witness: the all-empty criteria keep the whole sample set, which
is non-empty, and the rate identities hold there. -/
theorem rates_sum_to_one_witness :
    applyFilters ⟨none, none, none, []⟩ sampleDf ≠ []
      ∧ ((successCount (applyFilters ⟨none, none, none, []⟩ sampleDf) : ℚ)
            / ((applyFilters ⟨none, none, none, []⟩ sampleDf).length : ℚ)
          + (((applyFilters ⟨none, none, none, []⟩ sampleDf).length : ℚ)
              - (successCount (applyFilters ⟨none, none, none, []⟩ sampleDf) : ℚ))
            / ((applyFilters ⟨none, none, none, []⟩ sampleDf).length : ℚ) = 1
        ∧ |round2 ((successCount (applyFilters ⟨none, none, none, []⟩ sampleDf) : ℚ)
              / ((applyFilters ⟨none, none, none, []⟩ sampleDf).length : ℚ) * 100)
            + round2 ((((applyFilters ⟨none, none, none, []⟩ sampleDf).length : ℚ)
                - (successCount (applyFilters ⟨none, none, none, []⟩ sampleDf) : ℚ))
              / ((applyFilters ⟨none, none, none, []⟩ sampleDf).length : ℚ) * 100) - 100|
          ≤ 1 / 100) :=
  ⟨by decide, rates_sum_to_one ⟨sampleDf⟩ ⟨none, none, none, []⟩ (by decide)⟩

/-- Python choice always returns an element of its (non-empty) list. -/
lemma pyChoice_mem (l : List String) (hl : l ≠ []) (r : Nat) : pyChoice l r ∈ l := by
  have hlen : r % l.length < l.length := Nat.mod_lt _ (List.length_pos.mpr hl)
  rw [pyChoice, List.getD_eq_getElem l _ hlen]
  exact List.getElem_mem hlen

/-- The status drawn for a record is either "success" or "failure". -/
lemma statusChoice_cases (seed : Nat) :
    pyChoice statusPool seed = "success" ∨ pyChoice statusPool seed = "failure" := by
  have hmem : pyChoice statusPool seed ∈ statusPool :=
    pyChoice_mem statusPool (by decide) seed
  rw [statusPool] at hmem
  rcases List.mem_append.mp hmem with hrep | hone
  · exact Or.inl (List.eq_of_mem_replicate hrep)
  · exact Or.inr (List.mem_singleton.mp hone)

/-- C1: every generated record has `error_code = "None"` exactly when
`status = "success"`, and `status = "failure"` exactly when
`error_code` is one of E-100, E-200, E-300. -/
theorem generate_data_status_error (now : Int) (draws : List Draw) (r : Record)
    (h : r ∈ generate_data now draws) :
    (r.error_code = "None" ↔ r.status = "success")
      ∧ (r.status = "failure"
          ↔ (r.error_code = "E-100" ∨ r.error_code = "E-200" ∨ r.error_code = "E-300")) := by
  rcases List.mem_map.mp h with ⟨d, _, rfl⟩
  have hstat : (genRecord now d).status = pyChoice statusPool d.statusSeed := rfl
  have herr : (genRecord now d).error_code
      = pyChoice
          (if pyChoice statusPool d.statusSeed == "failure" then ["E-100", "E-200", "E-300"]
           else ["None"])
          d.errorSeed := rfl
  rcases statusChoice_cases d.statusSeed with hs | hs
  · rw [hs] at hstat herr
    have herr2 : (genRecord now d).error_code = "None" := by
      rw [herr]; simp [pyChoice, Nat.mod_one]
    rw [hstat, herr2]
    simp
  · rw [hs] at hstat herr
    have hmem : (genRecord now d).error_code ∈ ["E-100", "E-200", "E-300"] := by
      rw [herr]
      simpa using pyChoice_mem ["E-100", "E-200", "E-300"] (by decide) d.errorSeed
    rw [hstat]
    simp only [List.mem_cons, List.not_mem_nil, or_false] at hmem
    rcases hmem with he | he | he <;> rw [he] <;> simp

/-- C1 witness: a draw whose status pick is the failure slot yields a
failing record carrying one of the three error codes. -/
theorem generate_data_status_error_witness :
    genRecord 0 ⟨0, 9, 0, 0, 0⟩ ∈ generate_data 0 [⟨0, 9, 0, 0, 0⟩]
      ∧ (((genRecord 0 ⟨0, 9, 0, 0, 0⟩).error_code = "None"
            ↔ (genRecord 0 ⟨0, 9, 0, 0, 0⟩).status = "success")
        ∧ ((genRecord 0 ⟨0, 9, 0, 0, 0⟩).status = "failure"
            ↔ ((genRecord 0 ⟨0, 9, 0, 0, 0⟩).error_code = "E-100"
                ∨ (genRecord 0 ⟨0, 9, 0, 0, 0⟩).error_code = "E-200"
                ∨ (genRecord 0 ⟨0, 9, 0, 0, 0⟩).error_code = "E-300"))) :=
  ⟨by simp [generate_data],
   generate_data_status_error 0 [⟨0, 9, 0, 0, 0⟩] _ (by simp [generate_data])⟩

/-- C8: the task duration of every generated record lies in [5.0, 60.0]
(it is `k / 100` minutes for some `500 ≤ k ≤ 6000`), hence is strictly
positive. -/
theorem generate_data_duration_bounds (now : Int) (draws : List Draw) (r : Record)
    (h : r ∈ generate_data now draws) :
    5 ≤ r.task_duration ∧ r.task_duration ≤ 60 ∧ 0 < r.task_duration := by
  rcases List.mem_map.mp h with ⟨d, _, rfl⟩
  have hlo : 500 ≤ randint 500 6000 d.durationSeed := Nat.le_add_right 500 _
  have hhi : randint 500 6000 d.durationSeed ≤ 6000 := by
    rw [randint]
    have := Nat.mod_lt d.durationSeed (show 0 < 6000 - 500 + 1 by decide)
    omega
  have hgen : (genRecord now d).task_duration
      = ((randint 500 6000 d.durationSeed : Nat) : ℚ) / 100 := rfl
  rw [hgen]
  refine ⟨?_, ?_, ?_⟩
  · rw [le_div_iff₀ (by norm_num : (0 : ℚ) < 100)]
    norm_num
    exact_mod_cast hlo
  · rw [div_le_iff₀ (by norm_num : (0 : ℚ) < 100)]
    norm_num
    exact_mod_cast hhi
  · apply div_pos _ (by norm_num : (0 : ℚ) < 100)
    have : (0 : Nat) < randint 500 6000 d.durationSeed := by omega
    exact_mod_cast this

/-- C8 witness: a concrete draw produces a duration within the bounds. -/
theorem generate_data_duration_bounds_witness :
    genRecord 0 ⟨3, 0, 0, 1, 123⟩ ∈ generate_data 0 [⟨3, 0, 0, 1, 123⟩]
      ∧ (5 ≤ (genRecord 0 ⟨3, 0, 0, 1, 123⟩).task_duration
          ∧ (genRecord 0 ⟨3, 0, 0, 1, 123⟩).task_duration ≤ 60
          ∧ 0 < (genRecord 0 ⟨3, 0, 0, 1, 123⟩).task_duration) :=
  ⟨by simp [generate_data],
   generate_data_duration_bounds 0 [⟨3, 0, 0, 1, 123⟩] _ (by simp [generate_data])⟩

end Warehouse
